import Mathlib

/-!
Verification of the Firewall-Simulator packet filter (src/filter.c,
src/firewall.c) against its natural-language specification.

The embedding follows the C source closely.  Packet header fields are the
values produced by the pktUtility extraction helpers; pktUtility.c is a
prebuilt library whose source is not in the repository, so a packet is
represented by the already-extracted fields (source address, destination
address, IP protocol, ICMP type, TCP destination port), and the protocol
constants are modelled from the spec.  Addresses, masks and ports are
natural numbers; every operation performed by the C code on them (bitwise
and, shift, or, equality, linear search) is width-independent on the
values the program produces, so no explicit 2^32 reduction is needed:
the mask computation starts from 0 and stays below 2^32.
-/

/-- Protocol number of ICMP. Modelled from the spec: the constant
`IP_PROTOCOL_ICMP` lives in pktUtility.h, which is not in the repository;
the spec names the protocol ICMP, whose standard IPv4 protocol number is 1. -/
def IP_PROTOCOL_ICMP : Nat := 1

/-- Protocol number of TCP. Modelled from the spec: the constant
`IP_PROTOCOL_TCP` lives in pktUtility.h, which is not in the repository;
the spec names the protocol TCP, whose standard IPv4 protocol number is 6. -/
def IP_PROTOCOL_TCP : Nat := 6

/-- ICMP type of an Echo-Request. Modelled from the spec: the constant
`ICMP_TYPE_ECHO_REQ` lives in pktUtility.h, which is not in the repository;
the spec names the Echo-Request type, whose standard ICMP type number is 8. -/
def ICMP_TYPE_ECHO_REQ : Nat := 8

/-- The filter configuration (struct FilterConfig_S, filter.c lines 28-37).
The two C arrays with their explicit lengths become lists. -/
structure FilterConfig where
  localIpAddr : Nat
  localMask : Nat
  blockInboundEchoReq : Bool
  blockedInboundTcpPorts : List Nat
  blockedIpAddresses : List Nat
  deriving Repr, DecidableEq

/-- CreateFilter (filter.c lines 86-99): all fields zero-initialised. -/
def CreateFilter : FilterConfig :=
  { localIpAddr := 0
    localMask := 0
    blockInboundEchoReq := false
    blockedInboundTcpPorts := []
    blockedIpAddresses := [] }

/-- A packet, represented by the header fields the engine extracts with the
pktUtility fixed-offset parsers (ExtractSrcAddrFromIpHeader,
ExtractDstAddrFromIpHeader, ExtractIpProtocol, ExtractIcmpType,
ExtractTcpDstPort). -/
structure Packet where
  srcAddr : Nat
  dstAddr : Nat
  protocol : Nat
  icmpType : Nat
  tcpDstPort : Nat
  deriving Repr, DecidableEq

/-- BlockIpAddress (filter.c lines 259-267): linear search of the blocked
address array for an exact match. -/
def BlockIpAddress (fltCfg : FilterConfig) (addr : Nat) : Bool :=
  fltCfg.blockedIpAddresses.contains addr

/-- BlockInboundTcpPort (filter.c lines 274-282): linear search of the
blocked port array for an exact match. -/
def BlockInboundTcpPort (fltCfg : FilterConfig) (port : Nat) : Bool :=
  fltCfg.blockedInboundTcpPorts.contains port

/-- PacketIsInbound (filter.c lines 294-301): the packet is inbound iff the
masked destination equals the masked local address and the masked source
does not. -/
def PacketIsInbound (fltCfg : FilterConfig) (srcIpAddr dstIpAddr : Nat) : Bool :=
  let localIpAddrMasked := fltCfg.localIpAddr &&& fltCfg.localMask
  let dstIpAddrMasked := dstIpAddr &&& fltCfg.localMask
  let srcIpAddrMasked := srcIpAddr &&& fltCfg.localMask
  (dstIpAddrMasked == localIpAddrMasked) && (srcIpAddrMasked != localIpAddrMasked)

/-- FilterPacket (filter.c lines 219-252). Returns true when the packet is
allowed, false when it is blocked, with the C control flow preserved:
source-address block, then destination-address block, then the non-inbound
early allow, then the protocol switch (ICMP echo-request rule, TCP
destination-port rule, default allow). -/
def FilterPacket (fltCfg : FilterConfig) (pkt : Packet) : Bool :=
  if BlockIpAddress fltCfg pkt.srcAddr then false
  else if BlockIpAddress fltCfg pkt.dstAddr then false
  else if !PacketIsInbound fltCfg pkt.srcAddr pkt.dstAddr then true
  else if pkt.protocol == IP_PROTOCOL_ICMP then
    if fltCfg.blockInboundEchoReq && (pkt.icmpType == ICMP_TYPE_ECHO_REQ) then false
    else true
  else if pkt.protocol == IP_PROTOCOL_TCP then
    if BlockInboundTcpPort fltCfg pkt.tcpDstPort then false
    else true
  else true

/-- The firewall operating mode (enum FilterMode_e, firewall.c lines 29-34). -/
inductive FilterMode where
  | blockAll
  | allowAll
  | filter
  deriving Repr, DecidableEq, BEq

/-- The forwarding decision of FilterThread (firewall.c line 152): a record
is written to the output pipe iff Mode is MODE_ALLOW_ALL, or Mode is
MODE_FILTER and FilterPacket allows the packet.  Under MODE_BLOCK_ALL both
disjuncts are false, so nothing is written. -/
def forwardDecision (mode : FilterMode) (fltCfg : FilterConfig) (pkt : Packet) : Bool :=
  mode == FilterMode.allowAll || (mode == FilterMode.filter && FilterPacket fltCfg pkt)

/-- ConvertIpUIntOctetsToUInt. Modelled from the spec: the function lives in
the prebuilt libpktUtility library whose source is not in the repository;
the spec describes dotted-decimal addresses packed into a 32-bit unsigned
integer, first octet in the high-order byte. -/
def ConvertIpUIntOctetsToUInt (a b c d : Nat) : Nat :=
  (a <<< 24) ||| (b <<< 16) ||| (c <<< 8) ||| d

/-- One iteration of the mask-building loop in ConfigureFilter
(filter.c lines 168-172): shift right by one, then set the top bit. -/
def maskStep (mask : Nat) : Nat := (mask >>> 1) ||| 0x80000000

/-- The mask derived from a LOCAL_NET directive with parsed value p
(filter.c lines 167-172): p iterations of maskStep starting from 0. -/
def cidrMask : Nat → Nat
  | 0 => 0
  | p + 1 => maskStep (cidrMask p)

/-- A configuration line after tokenisation, mirroring the strtok/strcmp
dispatch in ConfigureFilter (filter.c lines 154-196): the first token is
either absent (blank line), one of the four recognized directive keywords
carrying its parsed arguments, or anything else (unrecognized). -/
inductive ConfigLine where
  | empty
  | localNet (a b c d p : Nat)
  | blockInboundTcpPort (port : Nat)
  | blockPingReq
  | blockIpAddr (a b c d : Nat)
  | unrecognized
  deriving Repr, DecidableEq

/-- The effect of one iteration of the ConfigureFilter while-loop
(filter.c lines 154-196) on the configuration being built: none is the
early return false taken for an unrecognized line. -/
def processLine (fltCfg : FilterConfig) : ConfigLine → Option FilterConfig
  | ConfigLine.empty => some fltCfg
  | ConfigLine.localNet a b c d p =>
      some { fltCfg with
        localIpAddr := ConvertIpUIntOctetsToUInt a b c d
        localMask := cidrMask p }
  | ConfigLine.blockInboundTcpPort port =>
      some { fltCfg with
        blockedInboundTcpPorts := fltCfg.blockedInboundTcpPorts ++ [port] }
  | ConfigLine.blockPingReq =>
      some { fltCfg with blockInboundEchoReq := true }
  | ConfigLine.blockIpAddr a b c d =>
      some { fltCfg with
        blockedIpAddresses :=
          fltCfg.blockedIpAddresses ++ [ConvertIpUIntOctetsToUInt a b c d] }
  | ConfigLine.unrecognized => none

/-- The ConfigureFilter while-loop (filter.c lines 148-197): lines are
processed in order and an unrecognized line aborts immediately, before any
later line is processed. -/
def processLines : FilterConfig → List ConfigLine → Option FilterConfig
  | fltCfg, [] => some fltCfg
  | fltCfg, l :: ls =>
      match processLine fltCfg l with
      | none => none
      | some fltCfg2 => processLines fltCfg2 ls

/-- ConfigureFilter (filter.c lines 128-205) on an already-tokenised line
list: run the loop from the CreateFilter state, then apply the final check
(filter.c lines 199-202), which returns false when localIpAddr is still 0.
none stands for the C function returning false. -/
def ConfigureFilter (lines : List ConfigLine) : Option FilterConfig :=
  match processLines CreateFilter lines with
  | none => none
  | some fltCfg => if fltCfg.localIpAddr == 0 then none else some fltCfg

/-- Total version of processLine used to state what a successful load
computes: an unrecognized line leaves the configuration unchanged (on the
C side that case never contributes because the load has already failed). -/
def applyLineTotal (fltCfg : FilterConfig) (line : ConfigLine) : FilterConfig :=
  (processLine fltCfg line).getD fltCfg

/-- Whether a line is a LOCAL_NET directive. -/
def isLocalNetLine : ConfigLine → Bool
  | ConfigLine.localNet _ _ _ _ _ => true
  | _ => false

/-- Whether a LOCAL_NET directive occurs among the lines. -/
def hasLocalNet (lines : List ConfigLine) : Bool := lines.any isLocalNetLine

/-- Capacity of the packet buffer in the part_000 FilterThread variant
(src/unnamed/part_000 line 146): a fixed 2048-byte array. -/
def filterThreadBufCapacity : Nat := 2048

/-- The count FilterThread passes to fread for the packet body of a record
with declared length packetLength (firewall.c line 149, part_000 line 146):
the declared length itself — no comparison against any capacity occurs. -/
def filterThreadReadCount (packetLength : Nat) : Nat := packetLength

/-- Whether FilterThread rejects (discards without copying) a record with
the given declared length: the loop body (firewall.c lines 143-161,
part_000 lines 140-157) contains no rejection branch, so no record is ever
rejected, whatever its declared length. -/
def filterThreadRejectsOversized (_ : Nat) : Bool := false

/-- One step of main's startup sequence (firewall.c lines 84-91). -/
inductive MainStep where
  | createFilterStep
  | configureFilterStep (ok : Bool)
  | startFilterThread
  | exitFailure
  deriving Repr, DecidableEq

/-- Startup sequence of main (firewall.c lines 84-91): CreateFilter, then
ConfigureFilter — whose boolean result is discarded — then pthread_create
of FilterThread. There is no branch on the configuration result and no
failure exit on this path. -/
def mainStartup (configOk : Bool) : List MainStep :=
  [MainStep.createFilterStep, MainStep.configureFilterStep configOk,
   MainStep.startFilterThread]

/-- An action main's command loop can perform (firewall.c lines 104-125). -/
inductive CommandAction where
  | setMode (m : FilterMode)
  | cancelFilterThread
  | destroyFilterAction
  | exitSuccess
  | noOp
  deriving Repr, DecidableEq

/-- The actions main performs for a user command (firewall.c lines
104-125): command 0 calls pthread_cancel on the filter thread — forced,
non-cooperative cancellation — then DestroyFilter, then returns
EXIT_SUCCESS; commands 1-3 store the corresponding Mode; any other value
does nothing. Neither main nor FilterThread sets a stop flag or closes
InPipe/OutPipe anywhere in the source. -/
def commandActions : Nat → List CommandAction
  | 0 => [CommandAction.cancelFilterThread, CommandAction.destroyFilterAction,
          CommandAction.exitSuccess]
  | 1 => [CommandAction.setMode FilterMode.blockAll]
  | 2 => [CommandAction.setMode FilterMode.allowAll]
  | 3 => [CommandAction.setMode FilterMode.filter]
  | _ => [CommandAction.noOp]

/-- Membership in the blocked list makes BlockIpAddress return true. -/
theorem blockIpAddress_eq_contains (fltCfg : FilterConfig) (addr : Nat) :
    BlockIpAddress fltCfg addr = true ↔ addr ∈ fltCfg.blockedIpAddresses := by
  simp [BlockIpAddress]

/-- C1: if the source or destination address of a packet is an exact-match
element of the blocked address list, FilterPacket blocks the packet
(returns false), for every direction, protocol, port and ICMP type. -/
theorem c1_blocked_address_overrides (fltCfg : FilterConfig) (pkt : Packet)
    (h : pkt.srcAddr ∈ fltCfg.blockedIpAddresses ∨ pkt.dstAddr ∈ fltCfg.blockedIpAddresses) :
    FilterPacket fltCfg pkt = false := by
  rcases h with h | h
  · have hb : BlockIpAddress fltCfg pkt.srcAddr = true :=
      (blockIpAddress_eq_contains fltCfg pkt.srcAddr).mpr h
    simp [FilterPacket, hb]
  · have hb : BlockIpAddress fltCfg pkt.dstAddr = true :=
      (blockIpAddress_eq_contains fltCfg pkt.dstAddr).mpr h
    by_cases hs : BlockIpAddress fltCfg pkt.srcAddr <;> simp [FilterPacket, hs, hb]

/-- Witness for C1 at a concrete configuration and packet: the address
10.0.0.5 (= 167772165) is blocked and appears as the source. -/
theorem c1_blocked_address_overrides_witness :
    FilterPacket
      { localIpAddr := 3232235776, localMask := 4294967040,
        blockInboundEchoReq := false, blockedInboundTcpPorts := [],
        blockedIpAddresses := [167772165] }
      { srcAddr := 167772165, dstAddr := 3232235781, protocol := 6,
        icmpType := 0, tcpDstPort := 80 } = false :=
  c1_blocked_address_overrides _ _ (Or.inl (by decide))

/-- C2: the Dispatcher write gate.  Under MODE_BLOCK_ALL no record is
written; under MODE_ALLOW_ALL every record is written, including
address-blocked ones; under MODE_FILTER a record is written iff
FilterPacket returns true (Allow). -/
theorem c2_mode_gate (fltCfg : FilterConfig) (pkt : Packet) :
    forwardDecision FilterMode.blockAll fltCfg pkt = false ∧
    forwardDecision FilterMode.allowAll fltCfg pkt = true ∧
    forwardDecision FilterMode.filter fltCfg pkt = FilterPacket fltCfg pkt := by
  refine ⟨rfl, rfl, ?_⟩
  unfold forwardDecision
  cases h : FilterPacket fltCfg pkt <;> rfl

/-- C3 (refuted, code bug): for a framed record whose declared length 5000
exceeds the buffer capacity 2048, FilterThread does not reject the record;
it passes the full declared length to fread as the byte count for the
fixed-size buffer, reading past the buffer's bound. -/
theorem c3_no_bound_check :
    filterThreadRejectsOversized 5000 = false ∧
    filterThreadReadCount 5000 = 5000 ∧
    filterThreadBufCapacity < filterThreadReadCount 5000 := by decide

/-- C4 (refuted, code bug): when configuration load fails, main still
starts the FilterThread dispatcher and never takes a failure exit — the
boolean result of ConfigureFilter is discarded. -/
theorem c4_dispatcher_starts_after_failed_config :
    MainStep.startFilterThread ∈ mainStartup false ∧
    MainStep.exitFailure ∉ mainStartup false := by decide

/-- C9 (refuted, code bug): on the Exit command (input 0), main forcibly
cancels the filter thread with pthread_cancel instead of requesting a
cooperative stop; no action of the command loop closes either stream. -/
theorem c9_exit_forcibly_cancels :
    commandActions 0 =
      [CommandAction.cancelFilterThread, CommandAction.destroyFilterAction,
       CommandAction.exitSuccess] ∧
    CommandAction.cancelFilterThread ∈ commandActions 0 := by decide

/-- Processing a line other than an unrecognized one never fails and
computes the total-step result. -/
theorem processLine_ne_unrecognized (fltCfg : FilterConfig) (l : ConfigLine)
    (h : l ≠ ConfigLine.unrecognized) :
    processLine fltCfg l = some (applyLineTotal fltCfg l) := by
  cases l <;> simp [processLine, applyLineTotal] at h ⊢

/-- The ConfigureFilter loop fails exactly when an unrecognized line is
present, and otherwise folds the recognized directives over the state. -/
theorem processLines_eq (lines : List ConfigLine) : ∀ fltCfg : FilterConfig,
    processLines fltCfg lines =
      if ConfigLine.unrecognized ∈ lines then none
      else some (lines.foldl applyLineTotal fltCfg) := by
  induction lines with
  | nil => intro fltCfg; simp [processLines]
  | cons l ls ih =>
    intro fltCfg
    by_cases hl : l = ConfigLine.unrecognized
    · subst hl
      simp [processLines, processLine]
    · rw [processLines, processLine_ne_unrecognized fltCfg l hl]
      simp only [ih, List.foldl_cons, List.mem_cons]
      by_cases hm : ConfigLine.unrecognized ∈ ls <;> simp [hm, hl, Ne.symm hl]

/-- C5 counterexample: the single line LOCAL_NET 0.0.0.0/24 is a
recognized, non-empty directive and a LOCAL_NET directive is present, yet
ConfigureFilter fails, because the final check tests localIpAddr == 0 and
the address 0.0.0.0 coincides with the unset sentinel.  The claim's
failure condition (an unrecognized line, or no LOCAL_NET seen) does not
hold here, so its "if and only if" is false. -/
theorem c5_counterexample :
    (ConfigLine.localNet 0 0 0 0 24 ≠ ConfigLine.unrecognized ∧
     ConfigLine.localNet 0 0 0 0 24 ≠ ConfigLine.empty) ∧
    hasLocalNet [ConfigLine.localNet 0 0 0 0 24] = true ∧
    ConfigureFilter [ConfigLine.localNet 0 0 0 0 24] = none := by decide

/-- C5 as amended: ConfigureFilter fails iff some line is unrecognized
(in which case no later line can influence the result) or, after all
lines are folded into the configuration, localIpAddr is still 0 (which
covers both a missing LOCAL_NET directive and LOCAL_NET with address
0.0.0.0); otherwise it succeeds with the populated configuration. -/
theorem c5_amended_failure_condition (lines : List ConfigLine) :
    ConfigureFilter lines =
      if ConfigLine.unrecognized ∈ lines then none
      else if (lines.foldl applyLineTotal CreateFilter).localIpAddr = 0 then none
      else some (lines.foldl applyLineTotal CreateFilter) := by
  rw [ConfigureFilter, processLines_eq]
  by_cases hm : ConfigLine.unrecognized ∈ lines <;> simp [hm]

/-- C6: for an inbound packet that is not address-blocked, the ICMP rule
blocks exactly echo requests when blockInboundEchoReq is set, the TCP rule
blocks exactly destination ports on the blocked list, and every other
protocol value is allowed. -/
theorem c6_inbound_protocol_rules (fltCfg : FilterConfig) (pkt : Packet)
    (hsrc : pkt.srcAddr ∉ fltCfg.blockedIpAddresses)
    (hdst : pkt.dstAddr ∉ fltCfg.blockedIpAddresses)
    (hin : PacketIsInbound fltCfg pkt.srcAddr pkt.dstAddr = true) :
    (pkt.protocol = IP_PROTOCOL_ICMP →
      (FilterPacket fltCfg pkt = false ↔
        fltCfg.blockInboundEchoReq = true ∧ pkt.icmpType = ICMP_TYPE_ECHO_REQ)) ∧
    (pkt.protocol = IP_PROTOCOL_TCP →
      (FilterPacket fltCfg pkt = false ↔
        pkt.tcpDstPort ∈ fltCfg.blockedInboundTcpPorts)) ∧
    (pkt.protocol ≠ IP_PROTOCOL_ICMP → pkt.protocol ≠ IP_PROTOCOL_TCP →
      FilterPacket fltCfg pkt = true) := by
  have hs : BlockIpAddress fltCfg pkt.srcAddr = false := by
    simpa [BlockIpAddress] using hsrc
  have hd : BlockIpAddress fltCfg pkt.dstAddr = false := by
    simpa [BlockIpAddress] using hdst
  refine ⟨fun hp => ?_, fun hp => ?_, fun hp1 hp2 => ?_⟩
  · simp [FilterPacket, hs, hd, hin, hp]
  · simp [FilterPacket, hs, hd, hin, hp, IP_PROTOCOL_TCP, IP_PROTOCOL_ICMP,
      BlockInboundTcpPort]
  · simp [FilterPacket, hs, hd, hin, hp1, hp2]

/-- Witness for C6 at a concrete input: local net 192.168.1.0/24 with
BLOCK_PING_REQ set; an inbound ICMP echo request from 8.8.8.8 to
192.168.1.5 is blocked. -/
theorem c6_inbound_protocol_rules_witness :
    FilterPacket
      { localIpAddr := 3232235776, localMask := 4294967040,
        blockInboundEchoReq := true, blockedInboundTcpPorts := [],
        blockedIpAddresses := [] }
      { srcAddr := 134744072, dstAddr := 3232235781, protocol := 1,
        icmpType := 8, tcpDstPort := 0 } = false :=
  ((c6_inbound_protocol_rules _ _ (by decide) (by decide) (by decide)).1
    rfl).mpr ⟨rfl, rfl⟩

/-- C7: PacketIsInbound returns true exactly when the masked destination
equals the masked local address and the masked source does not, and every
packet that is not inbound and not address-blocked is allowed, whatever
its protocol, port or ICMP type (none of which the verdict consults). -/
theorem c7_direction_gate (fltCfg : FilterConfig) (pkt : Packet) :
    (PacketIsInbound fltCfg pkt.srcAddr pkt.dstAddr = true ↔
      (pkt.dstAddr &&& fltCfg.localMask = fltCfg.localIpAddr &&& fltCfg.localMask ∧
       pkt.srcAddr &&& fltCfg.localMask ≠ fltCfg.localIpAddr &&& fltCfg.localMask)) ∧
    (pkt.srcAddr ∉ fltCfg.blockedIpAddresses →
     pkt.dstAddr ∉ fltCfg.blockedIpAddresses →
     PacketIsInbound fltCfg pkt.srcAddr pkt.dstAddr = false →
     FilterPacket fltCfg pkt = true) := by
  constructor
  · simp [PacketIsInbound]
  · intro hsrc hdst hin
    have hs : BlockIpAddress fltCfg pkt.srcAddr = false := by
      simpa [BlockIpAddress] using hsrc
    have hd : BlockIpAddress fltCfg pkt.dstAddr = false := by
      simpa [BlockIpAddress] using hdst
    simp [FilterPacket, hs, hd, hin]

/-- Witness for C7 at a concrete input: an outbound TCP packet from
192.168.1.5 to 8.8.8.8 on a blocked port is still allowed, because the
direction gate short-circuits before the port rule. -/
theorem c7_direction_gate_witness :
    FilterPacket
      { localIpAddr := 3232235776, localMask := 4294967040,
        blockInboundEchoReq := true, blockedInboundTcpPorts := [80],
        blockedIpAddresses := [] }
      { srcAddr := 3232235781, dstAddr := 134744072, protocol := 6,
        icmpType := 0, tcpDstPort := 80 } = true :=
  (c7_direction_gate _ _).2 (by decide) (by decide) (by decide)

/-- CIDR-mask bit pattern for all in-range p, checked exhaustively. -/
theorem cidrMask_testBit_aux :
    ∀ p < 33, ∀ i < 32, (cidrMask p).testBit i = decide (32 - p ≤ i) := by decide

/-- C8: for every p in [0,32], the mask ConfigureFilter derives from a
LOCAL_NET directive with value p — and stores in localMask — has bit i set
exactly when 32 - p ≤ i < 32, that is, p leading one-bits followed by
32 - p zero-bits; in particular p = 0 gives 0 and p = 32 gives all ones. -/
theorem c8_mask_bits (p : Nat) (hp : p ≤ 32) :
    (∀ i, i < 32 → (cidrMask p).testBit i = decide (32 - p ≤ i)) ∧
    (∀ (fltCfg : FilterConfig) (a b c d : Nat),
      (processLine fltCfg (ConfigLine.localNet a b c d p)).map
        FilterConfig.localMask = some (cidrMask p)) ∧
    cidrMask 0 = 0 ∧ cidrMask 32 = 4294967295 := by
  exact ⟨fun i hi => cidrMask_testBit_aux p (Nat.lt_succ_of_le hp) i hi,
    fun fltCfg a b c d => rfl, by decide, by decide⟩

/-- Witness for C8 at p = 24: bit 8 (first of the top 24) is set and
bit 7 (last of the bottom 8) is clear. -/
theorem c8_mask_bits_witness :
    (cidrMask 24).testBit 8 = true ∧ (cidrMask 24).testBit 7 = false :=
  ⟨(c8_mask_bits 24 (by decide)).1 8 (by decide),
   (c8_mask_bits 24 (by decide)).1 7 (by decide)⟩

/-- The mask loop saturates: 32 or more iterations give all 32 bits. -/
theorem cidrMask_saturates : ∀ p, 32 ≤ p → cidrMask p = 4294967295 := by
  intro p hp
  induction p with
  | zero => omega
  | succ n ih =>
    rcases Nat.lt_or_ge n 32 with h | h
    · have hn : n + 1 = 32 := by omega
      rw [hn]; decide
    · have hs := ih h
      show maskStep (cidrMask n) = 4294967295
      rw [hs]; decide

/-- C10: a LOCAL_NET directive with parsed value p > 32 is not rejected
by the loader; the derived mask saturates to 0xFFFFFFFF, identical to
p = 32, and a load consisting of such a directive (with a nonzero
address) succeeds. -/
theorem c10_oversized_cidr_saturates (p : Nat) (hp : 32 < p)
    (fltCfg : FilterConfig) (a b c d : Nat) :
    (processLine fltCfg (ConfigLine.localNet a b c d p)).isSome = true ∧
    cidrMask p = 4294967295 ∧
    cidrMask p = cidrMask 32 ∧
    (ConvertIpUIntOctetsToUInt a b c d ≠ 0 →
      ConfigureFilter [ConfigLine.localNet a b c d p] =
        some { CreateFilter with
          localIpAddr := ConvertIpUIntOctetsToUInt a b c d
          localMask := cidrMask p }) := by
  have hsat := cidrMask_saturates p (Nat.le_of_lt hp)
  refine ⟨rfl, hsat, ?_, fun h0 => ?_⟩
  · rw [hsat]; decide
  · simp [ConfigureFilter, processLines, processLine, CreateFilter, h0]

/-- Witness for C10 at p = 40 with address 192.168.1.0. -/
theorem c10_oversized_cidr_saturates_witness :
    cidrMask 40 = 4294967295 ∧
    ConfigureFilter [ConfigLine.localNet 192 168 1 0 40] =
      some { CreateFilter with
        localIpAddr := ConvertIpUIntOctetsToUInt 192 168 1 0
        localMask := cidrMask 40 } :=
  ⟨(c10_oversized_cidr_saturates 40 (by decide) CreateFilter 192 168 1 0).2.1,
   (c10_oversized_cidr_saturates 40 (by decide) CreateFilter 192 168 1 0).2.2.2
     (by decide)⟩
